import Mathlib

/-!
Shallow embedding of the multi-session lifecycle manager, webhook
dispatcher and messaging facade of `src/api/WA/WhatsAppClientWrapper.ts`,
together with the audio transcoding adapter of
`src/api/WA/AudioconvertToOggOpus.ts` and the durable client registry of
`src/api/WA/items_db_repository.ts`.

The external collaborators (the whatsapp-web.js engine, the Knex store,
the ffmpeg pipeline, axios POST) are modelled as oracles: total boolean
functions deciding whether a given external call succeeds.  The wrapper
state is the triple of in-memory maps (`clients`, `qrCodes`), the durable
registry table, and the set of session ids whose local authentication
directory exists on disk.  Every stateful operation of the wrapper is
embedded as a function returning the operation's result (`Except` for the
thrown/returned outcome) together with the post-state.
-/

namespace WAWrapper

/-- A row of the durable `clients` table (`items_db_repository.ts`). -/
structure ClientModel where
  id : String
  webhook_url : String
deriving DecidableEq, Repr

/-- `ClientConfig` as in `WhatsAppClientWrapper.ts`: id plus webhook URL. -/
structure ClientConfig where
  id : String
  webhookUrl : String
deriving DecidableEq, Repr

/-- `MessageMedia` (whatsapp-web.js): a mimetype plus base64 data. -/
structure MessageMedia where
  mimetype : String
  data : String
deriving DecidableEq, Repr

/-- Conversion failures of `convertToOggOpus` (AudioconvertToOggOpus.ts):
empty decoded input buffer, an ffmpeg error event, or empty ffmpeg output. -/
inductive ConvError where
  | emptyInput
  | ffmpegError
  | noOutput
deriving DecidableEq, Repr

/-- The distinct `Error`s thrown by the wrapper, classified by their
message strings in the source. -/
inductive WAError where
  | alreadyExists (id : String)
  | notFound (id : String)
  | notReady (id : String)
  | engineInit (id : String)
  | engineDestroy (id : String)
  | engineSend (id : String)
  | dbCreate (id : String)
  | conv (e : ConvError)
deriving DecidableEq, Repr

/-- The in-memory and durable state owned by one `WhatsAppClientWrapper`:
`clients` is the handle map (its keys; the handle objects themselves are
external and consulted through the `Engine` oracle), `qrCodes` the QR
cache, `registry` the durable `clients` table, and `authDirs` the session
ids whose `data/wwebjs_auth/session-<id>` directory exists. -/
structure WrapperState where
  clients : List String
  qrCodes : List (String × String)
  registry : List ClientModel
  authDirs : List String
deriving DecidableEq, Repr

/-- Oracle for the whatsapp-web.js engine: whether `client.initialize()`
succeeds for an id, whether `client.info` is non-null, whether
`client.destroy()` succeeds, and whether sends succeed. -/
structure Engine where
  initOk : String → Bool
  info : String → Bool
  destroyOk : String → Bool
  sendOk : String → String → Bool
  sendMediaOk : String → String → MessageMedia → Bool

/-- Oracle for the Knex store: whether inserting a row for an id succeeds
(a failing insert throws in `createClient` of the repository). -/
structure Db where
  createOk : String → Bool

instance {ε α : Type} [DecidableEq ε] [DecidableEq α] : DecidableEq (Except ε α)
  | Except.ok a, Except.ok b =>
    if h : a = b then isTrue (by rw [h])
    else isFalse (by intro hc; cases hc; exact h rfl)
  | Except.ok _, Except.error _ => isFalse (by intro hc; cases hc)
  | Except.error _, Except.ok _ => isFalse (by intro hc; cases hc)
  | Except.error e, Except.error f =>
    if h : e = f then isTrue (by rw [h])
    else isFalse (by intro hc; cases hc; exact h rfl)

/-- `Map.get` on an association list (JS `Map` keyed by session id). -/
def listLookup (m : List (String × String)) (k : String) : Option String :=
  (m.find? (fun p => p.1 = k)).map (fun p => p.2)

/-- `Map.set`: overwrite in place if the key exists, else append. -/
def listSet (m : List (String × String)) (k v : String) : List (String × String) :=
  if (m.find? (fun p => p.1 = k)).isSome then
    m.map (fun p => if p.1 = k then (k, v) else p)
  else
    m ++ [(k, v)]

/-- `getClientById` of the repository: first row whose id matches. -/
def getClientById (reg : List ClientModel) (id : String) : Option ClientModel :=
  reg.find? (fun c => c.id = id)

/-- `deleteClient` of the repository: delete all rows whose id matches. -/
def deleteClientRec (reg : List ClientModel) (id : String) : List ClientModel :=
  reg.filter (fun c => ¬ c.id = id)

/-- `createClient` (private, lines 86-247): no-op with a warning when a
handle already exists; otherwise `client.initialize()`, recording the
handle on success and rethrowing the engine error on failure. -/
def createClient (eng : Engine) (s : WrapperState) (id : String) :
    Except WAError Unit × WrapperState :=
  if s.clients.contains id then (Except.ok (), s)
  else if eng.initOk id then
    (Except.ok (), { s with clients := s.clients ++ [id] })
  else (Except.error (WAError.engineInit id), s)

/-- The restoration loop of `initialize` (lines 35-41): a plain `for`
over the registry rows, `await this.createClient(client.id)` on each; an
exception propagates and aborts the remaining iterations. -/
def initializeLoop (eng : Engine) :
    List ClientModel → WrapperState → Except WAError Unit × WrapperState
  | [], s => (Except.ok (), s)
  | c :: rest, s =>
    match createClient eng s c.id with
    | (Except.ok _, s1) => initializeLoop eng rest s1
    | (Except.error e, s1) => (Except.error e, s1)

/-- `initialize` (lines 35-41): read all registry rows and start each
(`initialize` is a reserved word in Lean, hence the suffix). -/
def initializeWrapper (eng : Engine) (s : WrapperState) :
    Except WAError Unit × WrapperState :=
  initializeLoop eng s.registry s

/-- One iteration of `restoreSessions` (lines 254-272): inside a
per-session try/catch, persist the row when absent, then start the
handle; any error is caught and logged, leaving partial effects. -/
def restoreStep (db : Db) (eng : Engine) (s : WrapperState)
    (cfg : ClientConfig) : WrapperState :=
  match getClientById s.registry cfg.id with
  | some _ => (createClient eng s cfg.id).2
  | none =>
    if db.createOk cfg.id then
      (createClient eng
        { s with registry := s.registry ++ [⟨cfg.id, cfg.webhookUrl⟩] }
        cfg.id).2
    else s

/-- `restoreSessions` (lines 254-272): per-session error isolation. -/
def restoreSessions (db : Db) (eng : Engine) (s : WrapperState)
    (configs : List ClientConfig) : WrapperState :=
  configs.foldl (restoreStep db eng) s

/-- `addClient` (lines 47-80): `Conflict` when a registry row exists;
otherwise persist the row (a failing insert rethrows), then start the
handle; when the start fails the just-created row is deleted again and
the error rethrown. -/
def addClient (db : Db) (eng : Engine) (s : WrapperState)
    (cfg : ClientConfig) : Except WAError Unit × WrapperState :=
  match getClientById s.registry cfg.id with
  | some _ => (Except.error (WAError.alreadyExists cfg.id), s)
  | none =>
    if db.createOk cfg.id then
      let s1 : WrapperState :=
        { s with registry := s.registry ++ [⟨cfg.id, cfg.webhookUrl⟩] }
      match createClient eng s1 cfg.id with
      | (Except.ok _, s2) => (Except.ok (), s2)
      | (Except.error e, s2) =>
        (Except.error e, { s2 with registry := deleteClientRec s2.registry cfg.id })
    else (Except.error (WAError.dbCreate cfg.id), s)

/-- `removeClient` (lines 375-412).  With a live handle: destroy the
engine handle, then delete the handle, the registry row, the cached QR
and the session auth directory; a destroy failure rethrows before any of
those deletions run.  Without a live handle: delete the session auth
directory if present, then throw `NotFound` — the registry row is never
touched on this path. -/
def removeClient (eng : Engine) (s : WrapperState) (id : String) :
    Except WAError Unit × WrapperState :=
  if s.clients.contains id then
    if eng.destroyOk id then
      (Except.ok (),
        { clients := s.clients.filter (fun c => ¬ c = id)
          qrCodes := s.qrCodes.filter (fun p => ¬ p.1 = id)
          registry := deleteClientRec s.registry id
          authDirs := s.authDirs.filter (fun a => ¬ a = id) })
    else (Except.error (WAError.engineDestroy id), s)
  else
    (Except.error (WAError.notFound id),
      { s with authDirs := s.authDirs.filter (fun a => ¬ a = id) })

/-- `getQRCode` (lines 367-369): a single read of the QR cache; the body
cannot throw and mutates nothing. -/
def getQRCode (s : WrapperState) (id : String) :
    Except WAError (Option String) × WrapperState :=
  (Except.ok (listLookup s.qrCodes id), s)

/-- `getClientStatus` (lines 438-448): `NotFound` without a handle; `qr`
while a QR artifact is cached; otherwise `listo` when `client.info` is
non-null and `inicializando` when it is null. -/
def getClientStatus (eng : Engine) (s : WrapperState) (id : String) :
    Except WAError String :=
  if s.clients.contains id then
    if (listLookup s.qrCodes id).isSome then Except.ok "qr"
    else if eng.info id then Except.ok "listo"
    else Except.ok "inicializando"
  else Except.error (WAError.notFound id)

/-- `sendMessage` (lines 321-339): `NotFound` without a handle, `NotReady`
while the status is `qr`, otherwise delegate to the engine. -/
def sendMessage (eng : Engine) (s : WrapperState) (id recipient message : String) :
    Except WAError Unit × WrapperState :=
  if s.clients.contains id then
    if (getClientStatus eng s id).toOption = some "qr" then
      (Except.error (WAError.notReady id), s)
    else if eng.sendOk id recipient then (Except.ok (), s)
    else (Except.error (WAError.engineSend id), s)
  else (Except.error (WAError.notFound id), s)

/-- `sendMedia` (lines 348-360): `NotFound` without a handle, otherwise
delegate to the engine directly — there is no readiness check. -/
def sendMedia (eng : Engine) (s : WrapperState) (id recipient : String)
    (media : MessageMedia) (caption : Option String) :
    Except WAError Unit × WrapperState :=
  if s.clients.contains id then
    if eng.sendMediaOk id recipient media then (Except.ok (), s)
    else (Except.error (WAError.engineSend id), s)
  else (Except.error (WAError.notFound id), s)

/-! ### Webhook dispatcher (`sendWebhook`, lines 516-533, and the event
handlers that invoke it) -/

/-- Oracle for `axios.post`: whether the POST to a URL succeeds at a
given (1-based) attempt number. -/
structure WebhookPost where
  ok : String → Nat → Bool

/-- Observable trace of one `sendWebhook` call: the POSTs performed (URL
and attempt number, in order), the waits performed (milliseconds, in
order), and whether a POST eventually succeeded.  The function itself
returns void in either outcome: after the last failed attempt the
failure is only logged (the `throw error` in the source is commented
out), so no constructor for a surfaced error exists. -/
structure WebhookTrace where
  posts : List (String × Nat)
  delays : List Nat
  delivered : Bool
deriving DecidableEq, Repr

/-- The retry loop of `sendWebhook` with `fuel = maxRetries - attempt + 1`
remaining iterations: POST; on success return; on failure at the last
attempt log and return; otherwise wait `1000 * attempt` ms and retry. -/
def sendWebhookGo (post : WebhookPost) (url : String) :
    Nat → Nat → WebhookTrace
  | 0, _ => ⟨[], [], false⟩
  | fuel + 1, attempt =>
    if post.ok url attempt then ⟨[(url, attempt)], [], true⟩
    else if fuel = 0 then ⟨[(url, attempt)], [], false⟩
    else
      let t := sendWebhookGo post url fuel (attempt + 1)
      ⟨(url, attempt) :: t.posts, 1000 * attempt :: t.delays, t.delivered⟩

/-- `sendWebhook` (lines 516-533): `maxRetries = 5`, attempts numbered
from 1. -/
def sendWebhook (post : WebhookPost) (url : String) : WebhookTrace :=
  sendWebhookGo post url 5 1

/-- The `qr` event handler (lines 103-124): cache the QR artifact for the
session, resolve the webhook destination from the registry, and when one
is configured run `sendWebhook` against it; with none the event is
dropped.  Returns the post-state and the delivery trace. -/
def onQr (post : WebhookPost) (s : WrapperState) (id qrBase64 : String) :
    WrapperState × WebhookTrace :=
  let s1 : WrapperState := { s with qrCodes := listSet s.qrCodes id qrBase64 }
  match getClientById s1.registry id with
  | some c => (s1, sendWebhook post c.webhook_url)
  | none => (s1, ⟨[], [], false⟩)

/-! ### Audio transcoding adapter (`AudioconvertToOggOpus.ts`) -/

/-- Index of a character in the standard base64 alphabet. -/
def b64Index (c : Char) : Option Nat :=
  if 'A' ≤ c ∧ c ≤ 'Z' then some (c.toNat - 65)
  else if 'a' ≤ c ∧ c ≤ 'z' then some (c.toNat - 97 + 26)
  else if '0' ≤ c ∧ c ≤ '9' then some (c.toNat - 48 + 52)
  else if c = '+' then some 62
  else if c = '/' then some 63
  else none

/-- `Buffer.from(s, 'base64')` (Node's lenient decoder): characters
outside the alphabet are ignored, decoding stops at `=`, and a trailing
group shorter than one output byte is dropped. -/
def b64Decode (s : String) : List Nat :=
  let sixes := (s.toList.takeWhile (fun c => ¬ c = '=')).filterMap b64Index
  let n := sixes.length
  let nbytes := 6 * n / 8
  let bits := (sixes.foldl (fun acc v => acc * 64 + v) 0) / 2 ^ (6 * n % 8)
  (List.range nbytes).map (fun i => bits / 2 ^ (8 * (nbytes - 1 - i)) % 256)

/-- The standard base64 alphabet, by index. -/
def b64Char (i : Nat) : Char :=
  ("ABCDEFGHIJKLMNOPQRSTUVWXYZabcdefghijklmnopqrstuvwxyz0123456789+/".toList).getD i 'A'

/-- `buffer.toString('base64')`: standard padded base64 encoding. -/
def b64Encode : List Nat → String
  | [] => ""
  | [b1] =>
    String.mk [b64Char (b1 / 4), b64Char (b1 % 4 * 16), '=', '=']
  | [b1, b2] =>
    String.mk [b64Char (b1 / 4), b64Char (b1 % 4 * 16 + b2 / 16),
      b64Char (b2 % 16 * 4), '=']
  | b1 :: b2 :: b3 :: rest =>
    String.mk [b64Char (b1 / 4), b64Char (b1 % 4 * 16 + b2 / 16),
      b64Char (b2 % 16 * 4 + b3 / 64), b64Char (b3 % 64)] ++ b64Encode rest

/-- End positions (exclusive) of every occurrence of `";base64,"` in a
character list, scanning from offset `pos`. -/
def findDelimEnds : List Char → Nat → List Nat
  | [], _ => []
  | c :: rest, pos =>
    (if ([';', 'b', 'a', 's', 'e', '6', '4', ','] : List Char).isPrefixOf
        (c :: rest) then
      [pos + 8]
    else []) ++ findDelimEnds rest (pos + 1)

/-- `cleanBase64Data`: `base64Data.replace(/^data:.*;base64,/, '')` — a
match must start at the beginning with `data:`, `.*` cannot cross a
newline and is greedy, so the match consumes everything up to the last
`;base64,` of the first line. -/
def cleanBase64Data (base64Data : String) : String :=
  let cs := base64Data.toList
  let ends := findDelimEnds (cs.takeWhile (fun c => ¬ c = '\n')) 0
  if ("data:".toList).isPrefixOf cs ∧ ¬ ends = [] then
    String.mk (cs.drop (ends.getLastD 0))
  else base64Data

/-- The mimetype-to-ffmpeg-format-hint table of `convertToOggOpus`. -/
def formatMap : List (String × String) :=
  [("audio/mp3", "mp3"), ("audio/mpeg", "mp3"),
   ("audio/wav", "wav"), ("audio/x-wav", "wav")]

/-- Oracle for the ffmpeg pipeline: given the optional input-format hint
and the input bytes, either the output bytes or `none` for an error
event. -/
structure FfmpegEngine where
  run : Option String → List Nat → Option (List Nat)

/-- `convertToOggOpus(inputMimeType, base64Data)` (AudioconvertToOggOpus.ts,
lines 25-74): strip any data-URL prefix from `base64Data`, decode it,
fail when the decoded buffer is empty, look up the format hint for
`inputMimeType`, run ffmpeg, fail on an ffmpeg error or empty output,
else return the output re-encoded as base64. -/
def convertToOggOpus (ffmpeg : FfmpegEngine) (inputMimeType base64Data : String) :
    Except ConvError String :=
  let inputBuffer := b64Decode (cleanBase64Data base64Data)
  if inputBuffer = [] then Except.error ConvError.emptyInput
  else
    match ffmpeg.run (listLookup formatMap inputMimeType) inputBuffer with
    | none => Except.error ConvError.ffmpegError
    | some out =>
      if out = [] then Except.error ConvError.noOutput
      else Except.ok (b64Encode out)

/-- `sendAudioAsVoice(id, to, mimeType, base64)` (lines 487-507):
`NotFound` without a handle; otherwise the source line 495 calls
`convertToOggOpus(base64, mimeType)` — the third wrapper argument is
passed as the adapter's `inputMimeType` and the fourth as its
`base64Data` in exactly that order — then wraps the result as
`MessageMedia('audio/ogg', converted)` and delegates to the engine; a
conversion error is rethrown to the caller. -/
def sendAudioAsVoice (ffmpeg : FfmpegEngine) (eng : Engine)
    (s : WrapperState) (id recipient mimeType base64 : String) :
    Except WAError Unit × WrapperState :=
  if s.clients.contains id then
    match convertToOggOpus ffmpeg base64 mimeType with
    | Except.error e => (Except.error (WAError.conv e), s)
    | Except.ok convertedBase64 =>
      if eng.sendMediaOk id recipient ⟨"audio/ogg", convertedBase64⟩ then
        (Except.ok (), s)
      else (Except.error (WAError.engineSend id), s)
  else (Except.error (WAError.notFound id), s)

/-- An engine oracle on which every external call succeeds and every
handle reports itself authenticated. -/
def engAllOk : Engine :=
  ⟨fun _ => true, fun _ => true, fun _ => true, fun _ _ => true, fun _ _ _ => true⟩

/-- An engine oracle whose handles report a null `info` but on which
every other external call succeeds. -/
def engNullInfo : Engine :=
  ⟨fun _ => true, fun _ => false, fun _ => true, fun _ _ => true, fun _ _ _ => true⟩

/-- An engine oracle on which starting session "B" succeeds but starting
any other session (in particular "A") throws. -/
def engBOnly : Engine :=
  ⟨fun i => i == "B", fun _ => false, fun _ => true, fun _ _ => true,
    fun _ _ _ => true⟩

end WAWrapper

namespace WAWrapper

/-- C10: `getQRCode` is total and read-only — for every state (including
states where the id has no handle and no registry record) it returns
`ok` of the cached artifact when one exists and `ok none` otherwise,
never an error (in particular never `NotFound`), and the post-state is
the pre-state: the QR cache and handle map are unchanged. -/
theorem getQRCode_total_readonly (s : WrapperState) (id : String) :
    (getQRCode s id).1 = Except.ok (listLookup s.qrCodes id) ∧
    (getQRCode s id).2 = s := by
  constructor <;> rfl

/-- C9: `removeClient` is atomic with respect to engine teardown failure —
when a live handle exists and destroying it fails, the engine error is
propagated and the entire state (handle map, QR cache, durable registry
and local auth material) is exactly the pre-state. -/
theorem removeClient_destroy_failure_atomic (eng : Engine) (s : WrapperState)
    (id : String) (hh : s.clients.contains id = true)
    (hd : eng.destroyOk id = false) :
    removeClient eng s id = (Except.error (WAError.engineDestroy id), s) := by
  simp only [removeClient, hh, hd]
  simp

/-- Witness for `removeClient_destroy_failure_atomic` at a concrete
state with a live handle for "A" and a failing destroy. -/
theorem removeClient_destroy_failure_atomic_witness :
    removeClient ⟨fun _ => true, fun _ => true, fun _ => false, fun _ _ => true,
        fun _ _ _ => true⟩
      ⟨["A"], [("A", "QR")], [⟨"A", "https://hook/a"⟩], ["A"]⟩ "A" =
    (Except.error (WAError.engineDestroy "A"),
      ⟨["A"], [("A", "QR")], [⟨"A", "https://hook/a"⟩], ["A"]⟩) :=
  removeClient_destroy_failure_atomic _ _ "A" (by decide) (by decide)

/-- Counterexample to C4: a state with a registry record for "A" but no
live handle.  The claim says `removeClient` should attempt registry
deletion and report success; the code instead throws `NotFound` and
leaves the registry record in place. -/
theorem removeClient_nohandle_counterexample :
    (removeClient engAllOk ⟨[], [], [⟨"A", "https://hook/a"⟩], ["A"]⟩ "A").1 =
      Except.error (WAError.notFound "A") ∧
    getClientById
      (removeClient engAllOk ⟨[], [], [⟨"A", "https://hook/a"⟩], ["A"]⟩ "A").2.registry
      "A" = some ⟨"A", "https://hook/a"⟩ := by
  constructor <;> rfl

/-- C4 (amended): when no live handle exists for an id, `removeClient`
erases the session-local auth material, leaves the handle map, the QR
cache and the durable registry untouched, and always fails with
`NotFound` — even when a registry record for the id exists. -/
theorem removeClient_nohandle (eng : Engine) (s : WrapperState) (id : String)
    (hh : s.clients.contains id = false) :
    removeClient eng s id =
      (Except.error (WAError.notFound id),
        { s with authDirs := s.authDirs.filter (fun a => ¬ a = id) }) := by
  simp only [removeClient, hh]
  simp

/-- Witness for `removeClient_nohandle` at a concrete state holding a
registry record and auth material for "A" but no handle. -/
theorem removeClient_nohandle_witness :
    removeClient engAllOk ⟨[], [], [⟨"A", "https://hook/a"⟩], ["A"]⟩ "A" =
      (Except.error (WAError.notFound "A"),
        ⟨[], [], [⟨"A", "https://hook/a"⟩], []⟩) := by
  have h := removeClient_nohandle engAllOk
    ⟨[], [], [⟨"A", "https://hook/a"⟩], ["A"]⟩ "A" (by decide)
  simpa using h

/-- C6: with a live handle for "A", an empty QR cache and an engine
reporting a null `info`, `getClientStatus` returns the distinct
`inicializando` status, not `qr`.  The claim (and the repository's own
CHANGELOG entry for 1.0.5, "ahora se interpreta correctamente el estado
`null` como `qr_ready`") says a null engine state must be treated as
QR-pending; the shipped code maps it to `inicializando`. -/
theorem getClientStatus_null_info_is_inicializando :
    getClientStatus engNullInfo ⟨["A"], [], [⟨"A", "https://hook/a"⟩], []⟩ "A" =
      Except.ok "inicializando" ∧
    ¬ getClientStatus engNullInfo ⟨["A"], [], [⟨"A", "https://hook/a"⟩], []⟩ "A" =
      Except.ok "qr" := by
  constructor
  · rfl
  · decide

/-- C3: `addClient` is all-or-nothing — for an id with no registry
record and no live handle, when persisting the record succeeds but
starting the handle fails, the engine error is surfaced to the caller
and the just-created registry record is rolled back, leaving the entire
state exactly as before the call (in particular the registry contains no
record for the id). -/
theorem addClient_rollback (db : Db) (eng : Engine) (s : WrapperState)
    (cfg : ClientConfig)
    (hreg : getClientById s.registry cfg.id = none)
    (hhandle : s.clients.contains cfg.id = false)
    (hdb : db.createOk cfg.id = true)
    (heng : eng.initOk cfg.id = false) :
    (addClient db eng s cfg).1 = Except.error (WAError.engineInit cfg.id) ∧
    (addClient db eng s cfg).2 = s := by
  have hall : ∀ c ∈ s.registry, ¬ c.id = cfg.id := by
    intro c hc
    have h := List.find?_eq_none.mp hreg c hc
    simpa using h
  have hfilter :
      deleteClientRec (s.registry ++ [⟨cfg.id, cfg.webhookUrl⟩]) cfg.id =
        s.registry := by
    unfold deleteClientRec
    rw [List.filter_append]
    have h1 : s.registry.filter (fun c => ¬ c.id = cfg.id) = s.registry :=
      List.filter_eq_self.mpr (by intro c hc; simpa using hall c hc)
    have h2 : ([(⟨cfg.id, cfg.webhookUrl⟩ : ClientModel)]).filter
        (fun c => ¬ c.id = cfg.id) = [] := by simp
    rw [h1, h2, List.append_nil]
  simp only [addClient, hreg, hdb, createClient, hhandle, heng]
  simp [hfilter]

/-- Witness for `addClient_rollback`: a fresh id on an empty state, a
successful insert and a failing engine start. -/
theorem addClient_rollback_witness :
    (addClient ⟨fun _ => true⟩
        ⟨fun _ => false, fun _ => true, fun _ => true, fun _ _ => true,
          fun _ _ _ => true⟩
        ⟨[], [], [], []⟩ ⟨"A", "https://hook/a"⟩).1 =
      Except.error (WAError.engineInit "A") ∧
    (addClient ⟨fun _ => true⟩
        ⟨fun _ => false, fun _ => true, fun _ => true, fun _ _ => true,
          fun _ _ _ => true⟩
        ⟨[], [], [], []⟩ ⟨"A", "https://hook/a"⟩).2 = ⟨[], [], [], []⟩ :=
  addClient_rollback _ _ _ _ (by decide) (by decide) (by decide) (by decide)

/-- Counterexample to C1: a registry holding sessions "A" and "B" where
starting "A" throws.  The claim says "B" is still started and reachable
via `status("B")`; in the code the `for` loop of `initialize` rethrows
the failure of "A", so "B" is never started and `status("B")` fails with
`NotFound`. -/
theorem initialize_abort_counterexample :
    (initializeWrapper engBOnly
        ⟨[], [], [⟨"A", "https://hook/a"⟩, ⟨"B", "https://hook/b"⟩], []⟩).1 =
      Except.error (WAError.engineInit "A") ∧
    (initializeWrapper engBOnly
        ⟨[], [], [⟨"A", "https://hook/a"⟩, ⟨"B", "https://hook/b"⟩], []⟩).2.clients.contains
        "B" = false ∧
    getClientStatus engBOnly
      (initializeWrapper engBOnly
        ⟨[], [], [⟨"A", "https://hook/a"⟩, ⟨"B", "https://hook/b"⟩], []⟩).2
      "B" = Except.error (WAError.notFound "B") := by
  decide

/-- C1 (amended): during batch restoration, a failure to start the first
registered session aborts the restoration of the remaining sessions —
`initialize` rethrows the failure, starts no later handle, and a
subsequent `status` on the later session fails with `NotFound`.  The
per-session failure isolation exists only in `restoreSessions` (which
`initialize` does not call): restoring the same two sessions through it
does start "B". -/
theorem initialize_aborts_on_start_failure (db : Db) (eng : Engine)
    (s : WrapperState) (a ua b ub : String)
    (hreg : s.registry = [⟨a, ua⟩, ⟨b, ub⟩])
    (hcl : s.clients = [])
    (ha : eng.initOk a = false)
    (hb : eng.initOk b = true) :
    (initializeWrapper eng s).1 = Except.error (WAError.engineInit a) ∧
    (initializeWrapper eng s).2 = s ∧
    getClientStatus eng (initializeWrapper eng s).2 b =
      Except.error (WAError.notFound b) ∧
    (restoreSessions db eng s [⟨a, ua⟩, ⟨b, ub⟩]).clients.contains b = true := by
  have hab : ¬ a = b := by
    intro h
    rw [h, hb] at ha
    cases ha
  have hinit : initializeWrapper eng s = (Except.error (WAError.engineInit a), s) := by
    simp only [initializeWrapper, hreg, initializeLoop, createClient, hcl]
    simp [ha]
  refine ⟨by rw [hinit], by rw [hinit], ?_, ?_⟩
  · rw [hinit]
    simp only [getClientStatus, hcl]
    simp
  · simp [restoreSessions, restoreStep, createClient, getClientById, hreg, hcl,
      List.find?, ha, hb, hab]

/-- Witness for `initialize_aborts_on_start_failure` on the concrete
two-session registry of the counterexample. -/
theorem initialize_aborts_on_start_failure_witness :
    (initializeWrapper engBOnly
        ⟨[], [], [⟨"A", "https://hook/a"⟩, ⟨"B", "https://hook/b"⟩], []⟩).1 =
      Except.error (WAError.engineInit "A") ∧
    (initializeWrapper engBOnly
        ⟨[], [], [⟨"A", "https://hook/a"⟩, ⟨"B", "https://hook/b"⟩], []⟩).2 =
      ⟨[], [], [⟨"A", "https://hook/a"⟩, ⟨"B", "https://hook/b"⟩], []⟩ ∧
    getClientStatus engBOnly
      (initializeWrapper engBOnly
        ⟨[], [], [⟨"A", "https://hook/a"⟩, ⟨"B", "https://hook/b"⟩], []⟩).2
      "B" = Except.error (WAError.notFound "B") ∧
    (restoreSessions ⟨fun _ => true⟩ engBOnly
        ⟨[], [], [⟨"A", "https://hook/a"⟩, ⟨"B", "https://hook/b"⟩], []⟩
        [⟨"A", "https://hook/a"⟩, ⟨"B", "https://hook/b"⟩]).clients.contains
      "B" = true :=
  initialize_aborts_on_start_failure ⟨fun _ => true⟩ engBOnly
    ⟨[], [], [⟨"A", "https://hook/a"⟩, ⟨"B", "https://hook/b"⟩], []⟩
    "A" "https://hook/a" "B" "https://hook/b"
    (by decide) (by decide) (by decide) (by decide)

/-- C8: `sendMedia` performs no readiness check — for every state it
never fails with the `NotReady` error (even while a QR artifact is
cached for the id), its result is the `NotFound` error exactly when no
live handle exists, and by contrast `sendMessage` in the same
QR-pending state does fail with `NotReady`. -/
theorem sendMedia_no_readiness_check (eng : Engine) (s : WrapperState)
    (id recipient message : String) (media : MessageMedia)
    (caption : Option String) :
    ¬ (sendMedia eng s id recipient media caption).1 =
        Except.error (WAError.notReady id) ∧
    ((sendMedia eng s id recipient media caption).1 =
        Except.error (WAError.notFound id) ↔ s.clients.contains id = false) ∧
    (s.clients.contains id = true → (listLookup s.qrCodes id).isSome = true →
      (sendMessage eng s id recipient message).1 =
        Except.error (WAError.notReady id)) := by
  refine ⟨?_, ?_, ?_⟩
  · unfold sendMedia
    cases hc : s.clients.contains id <;>
      cases hs : eng.sendMediaOk id recipient media <;> simp [hc, hs]
  · unfold sendMedia
    cases hc : s.clients.contains id <;>
      cases hs : eng.sendMediaOk id recipient media <;> simp [hc, hs]
  · intro h1 h2
    simp only [sendMessage, h1, getClientStatus, h2]
    simp [Except.toOption]

/-- Witness for `sendMedia_no_readiness_check` at a state whose handle
for "A" is live while a QR artifact is cached for "A". -/
theorem sendMedia_no_readiness_check_witness :
    ¬ (sendMedia engAllOk ⟨["A"], [("A", "QRDATA")], [], []⟩ "A" "dest"
        ⟨"image/png", "AAAA"⟩ none).1 = Except.error (WAError.notReady "A") ∧
    (sendMessage engAllOk ⟨["A"], [("A", "QRDATA")], [], []⟩ "A" "dest"
        "hello").1 = Except.error (WAError.notReady "A") :=
  ⟨(sendMedia_no_readiness_check engAllOk ⟨["A"], [("A", "QRDATA")], [], []⟩
      "A" "dest" "hello" ⟨"image/png", "AAAA"⟩ none).1,
   (sendMedia_no_readiness_check engAllOk ⟨["A"], [("A", "QRDATA")], [], []⟩
      "A" "dest" "hello" ⟨"image/png", "AAAA"⟩ none).2.2 (by decide) (by decide)⟩

/-- Every POST of one retry loop goes to the URL the loop was given. -/
theorem sendWebhookGo_posts_url (post : WebhookPost) (url : String) :
    ∀ fuel attempt, ∀ p ∈ (sendWebhookGo post url fuel attempt).posts,
      p.1 = url := by
  intro fuel
  induction fuel with
  | zero => intro attempt p hp; simp [sendWebhookGo] at hp
  | succ n ih =>
    intro attempt p hp
    unfold sendWebhookGo at hp
    by_cases h1 : post.ok url attempt
    · simp [h1] at hp; simp [hp]
    · by_cases h2 : n = 0
      · simp [h1, h2] at hp; simp [hp]
      · simp [h1, h2] at hp
        cases hp with
        | inl h => simp [h]
        | inr h => exact ih (attempt + 1) p h

/-- A retry loop with fuel left performs at least one POST. -/
theorem sendWebhookGo_posts_pos (post : WebhookPost) (url : String) :
    ∀ fuel attempt, 1 ≤ fuel →
      1 ≤ (sendWebhookGo post url fuel attempt).posts.length := by
  intro fuel attempt hf
  match fuel, hf with
  | n + 1, _ =>
    unfold sendWebhookGo
    by_cases h1 : post.ok url attempt
    · simp [h1]
    · by_cases h2 : n = 0
      · simp [h1, h2]
      · simp [h1, h2]

/-- A retry loop performs at most `fuel` POSTs. -/
theorem sendWebhookGo_posts_length_le (post : WebhookPost) (url : String) :
    ∀ fuel attempt, (sendWebhookGo post url fuel attempt).posts.length ≤ fuel := by
  intro fuel
  induction fuel with
  | zero => intro attempt; simp [sendWebhookGo]
  | succ n ih =>
    intro attempt
    unfold sendWebhookGo
    by_cases h1 : post.ok url attempt
    · simp [h1]
    · by_cases h2 : n = 0
      · simp [h1, h2]
      · have := ih (attempt + 1)
        simp [h1, h2]
        omega

/-- The waits of one retry loop are `1000 * k` for the consecutive
attempt numbers `k` starting at the loop's first attempt: the wait after
the k-th failed attempt is `k` times the 1000 ms base interval. -/
theorem sendWebhookGo_delays (post : WebhookPost) (url : String) :
    ∀ fuel attempt, (sendWebhookGo post url fuel attempt).delays =
      (List.range' attempt
        ((sendWebhookGo post url fuel attempt).posts.length - 1)).map
        (fun k => 1000 * k) := by
  intro fuel
  induction fuel with
  | zero => intro attempt; simp [sendWebhookGo]
  | succ n ih =>
    intro attempt
    unfold sendWebhookGo
    by_cases h1 : post.ok url attempt
    · simp [h1]
    · by_cases h2 : n = 0
      · simp [h1, h2]
      · have hpos := sendWebhookGo_posts_pos post url n (attempt + 1) (by omega)
        simp only [h1, h2]
        simp only [Bool.false_eq_true, if_false, if_neg h2]
        rw [ih (attempt + 1)]
        have hlen :
            (sendWebhookGo post url n (attempt + 1)).posts.length + 1 - 1 =
              ((sendWebhookGo post url n (attempt + 1)).posts.length - 1) + 1 := by
          omega
        simp only [List.length_cons, hlen, List.range'_succ, List.map_cons]

/-- The waits of one retry loop are strictly increasing. -/
theorem sendWebhookGo_delays_chain (post : WebhookPost) (url : String)
    (fuel attempt : Nat) :
    List.Chain' (fun a b => a < b) (sendWebhookGo post url fuel attempt).delays := by
  rw [sendWebhookGo_delays]
  exact List.Pairwise.chain'
    ((List.pairwise_lt_range' _ _).map (fun k => 1000 * k)
      (fun a b h => by simpa using (by omega : 1000 * a < 1000 * b)))

/-- C5: the webhook retry policy — for every POST oracle and URL,
`sendWebhook` performs at most 5 POSTs in total, the wait after the k-th
failed attempt is `1000 * k` ms (so the waits are strictly increasing),
and when every attempt fails it performs exactly 5 POSTs, waits
1000/2000/3000/4000 ms between them, and ends undelivered — the
function's return type carries no error channel (the `throw` in the
source is commented out), so the failure is only logged and the event
discarded. -/
theorem sendWebhook_retry_policy (post : WebhookPost) (url : String) :
    (sendWebhook post url).posts.length ≤ 5 ∧
    (sendWebhook post url).delays =
      (List.range' 1 ((sendWebhook post url).posts.length - 1)).map
        (fun k => 1000 * k) ∧
    List.Chain' (fun a b => a < b) (sendWebhook post url).delays ∧
    ((∀ k, post.ok url k = false) →
      (sendWebhook post url).posts.length = 5 ∧
      (sendWebhook post url).delays = [1000, 2000, 3000, 4000] ∧
      (sendWebhook post url).delivered = false) := by
  refine ⟨sendWebhookGo_posts_length_le post url 5 1,
    sendWebhookGo_delays post url 5 1,
    sendWebhookGo_delays_chain post url 5 1, ?_⟩
  intro hfail
  simp [sendWebhook, sendWebhookGo, hfail]

/-- Witness for `sendWebhook_retry_policy` with an always-failing POST
oracle. -/
theorem sendWebhook_retry_policy_witness :
    (sendWebhook ⟨fun _ _ => false⟩ "https://hook/a").posts.length = 5 ∧
    (sendWebhook ⟨fun _ _ => false⟩ "https://hook/a").delays =
      [1000, 2000, 3000, 4000] ∧
    (sendWebhook ⟨fun _ _ => false⟩ "https://hook/a").delivered = false :=
  (sendWebhook_retry_policy ⟨fun _ _ => false⟩ "https://hook/a").2.2.2
    (fun _ => rfl)

/-- Counterexample to C2: a session whose registered destination string
is `"https://a/x|https://b/y"` and an always-succeeding POST oracle.
Dispatching a `qr` event performs its delivery attempt against the whole
string taken verbatim as one URL: neither `"https://a/x"` nor
`"https://b/y"` ever receives its own delivery attempt, refuting "one
independent delivery attempt to each URL". -/
theorem webhook_no_split_counterexample :
    ((onQr ⟨fun _ _ => true⟩
        ⟨["c"], [], [⟨"c", "https://a/x|https://b/y"⟩], []⟩
        "c" "QRDATA").2.posts.map Prod.fst = ["https://a/x|https://b/y"]) ∧
    ¬ "https://b/y" ∈
      ((onQr ⟨fun _ _ => true⟩
          ⟨["c"], [], [⟨"c", "https://a/x|https://b/y"⟩], []⟩
          "c" "QRDATA").2.posts.map Prod.fst) ∧
    ¬ "https://a/x" ∈
      ((onQr ⟨fun _ _ => true⟩
          ⟨["c"], [], [⟨"c", "https://a/x|https://b/y"⟩], []⟩
          "c" "QRDATA").2.posts.map Prod.fst) := by
  decide

/-- C2 (amended): the dispatcher does not split the registered
destination string on `'|'` — whenever a destination is configured for
the session, every delivery attempt of the dispatched event is a POST to
the destination string taken verbatim as a single URL, and at least one
such attempt is performed. -/
theorem dispatch_uses_destination_verbatim (post : WebhookPost)
    (s : WrapperState) (id qrBase64 : String) (c : ClientModel)
    (hreg : getClientById s.registry id = some c) :
    (∀ p ∈ (onQr post s id qrBase64).2.posts, p.1 = c.webhook_url) ∧
    1 ≤ (onQr post s id qrBase64).2.posts.length := by
  unfold onQr
  simp only [hreg]
  exact ⟨sendWebhookGo_posts_url post c.webhook_url 5 1,
    sendWebhookGo_posts_pos post c.webhook_url 5 1 (by omega)⟩

/-- Witness for `dispatch_uses_destination_verbatim` on the
two-URL-looking destination string of the counterexample. -/
theorem dispatch_uses_destination_verbatim_witness :
    (∀ p ∈ ((onQr ⟨fun _ _ => true⟩
        ⟨["c"], [], [⟨"c", "https://a/x|https://b/y"⟩], []⟩
        "c" "QRDATA").2.posts), p.1 = "https://a/x|https://b/y") ∧
    1 ≤ ((onQr ⟨fun _ _ => true⟩
        ⟨["c"], [], [⟨"c", "https://a/x|https://b/y"⟩], []⟩
        "c" "QRDATA").2.posts.length) :=
  dispatch_uses_destination_verbatim ⟨fun _ _ => true⟩
    ⟨["c"], [], [⟨"c", "https://a/x|https://b/y"⟩], []⟩
    "c" "QRDATA" ⟨"c", "https://a/x|https://b/y"⟩ (by decide)

/-- C7: evaluation of `sendAudioAsVoice` at the failing input
`(id := "A", to := "+50688887777", mimeType := "audio/mp3",
base64 := "AAAA")` on a live handle.  Line 495 passes the declared
`base64` parameter as the adapter's `inputMimeType` and the declared
`mimeType` parameter as its `base64Data`, so: (1) with an identity
ffmpeg pipeline the media the engine is asked to send carries the
re-encoded MIME STRING (`"audio/mp3"` decoded and re-encoded is
`"audio/mp"`), and an engine accepting only the actual audio payload
`"AAAA"` rejects the send; (2) an ffmpeg pipeline that requires the
`"mp3"` format hint fails, because the hint lookup is fed the audio
data instead of the known mime-type `"audio/mp3"`; (3) the two decoded
payloads genuinely differ, so the swap is observable. -/
theorem sendAudioAsVoice_swapped_transcoder_args :
    (sendAudioAsVoice ⟨fun _ bytes => some bytes⟩
        ⟨fun _ => true, fun _ => true, fun _ => true, fun _ _ => true,
          fun _ _ m => m.data == "audio/mp"⟩
        ⟨["A"], [], [⟨"A", "https://hook/a"⟩], []⟩
        "A" "+50688887777" "audio/mp3" "AAAA").1 = Except.ok () ∧
    (sendAudioAsVoice ⟨fun _ bytes => some bytes⟩
        ⟨fun _ => true, fun _ => true, fun _ => true, fun _ _ => true,
          fun _ _ m => m.data == "AAAA"⟩
        ⟨["A"], [], [⟨"A", "https://hook/a"⟩], []⟩
        "A" "+50688887777" "audio/mp3" "AAAA").1 =
      Except.error (WAError.engineSend "A") ∧
    (sendAudioAsVoice
        ⟨fun hint bytes => if hint = some "mp3" then some bytes else none⟩
        engAllOk ⟨["A"], [], [⟨"A", "https://hook/a"⟩], []⟩
        "A" "+50688887777" "audio/mp3" "AAAA").1 =
      Except.error (WAError.conv ConvError.ffmpegError) ∧
    ¬ b64Decode (cleanBase64Data "audio/mp3") =
        b64Decode (cleanBase64Data "AAAA") := by
  decide

end WAWrapper
